import Mathlib

/-!
Verification of the external-tool wrapper layer of the `cai` repository
(`src/cai/tools/...`): shallow embedding of the wrapper functions
(`run_gobuster_dir`, `run_nuclei_scan`, `run_hashcat_crack`,
`run_enum4linux_scan`, `run_nmap_scan`, `run_dnsrecon_scan` and the command
builders of nmap/nikto/nuclei), together with theorems settling the frozen
claims about command building, output parsing, result classification,
timeout/missing-binary handling and scratch-artifact cleanup.

Modelling conventions:
* Python strings are Lean `String`s; the Python `str` methods used by the
  wrappers (`strip`, `split`, `splitlines`-style `split('\n')`, `replace`,
  `startswith`, `endswith`, `lower`, `rstrip`, the `in` substring test and
  `join`) are given executable models over `String.data` in the `Py`
  namespace, so every definition evaluates inside the kernel.
* A `subprocess.run` call is modelled by its observable outcome: either a
  `CompletedProcess` (exit code, stdout, stderr), or the `FileNotFoundError`
  raised when the binary is absent from PATH, or (for calls made with a
  `timeout=` argument) a `subprocess.TimeoutExpired`, or an arbitrary other
  exception caught by the wrappers' generic `except Exception` clauses.
* The filesystem visible to a wrapper (scratch artifact files, the
  `os.path.exists` checks, the `os.listdir('.')` potfile scan) is an
  association list from path to contents, taken at the moment the wrapper
  reads it; wrappers that delete files return the filesystem left behind.
* The external JSON / XML document parsers (`json.loads`, `json.load`,
  `xml.etree.ElementTree`) and `urllib.parse.urlparse` are collaborator
  libraries, passed to the embeddings as oracle parameters; every piece of
  wrapper-owned logic is translated from the source.
-/

namespace Cai

/-! ## Python string primitives (executable models of the `str` methods) -/

namespace Py

/-- Split a character list at every character satisfying `p`, keeping empty
segments — the behaviour of Python `str.split(sep)` for a one-character
separator. -/
def splitPredL (p : Char → Bool) (l : List Char) : List (List Char) :=
  l.foldr (fun a acc => if p a then [] :: acc else (a :: acc.headD []) :: acc.tail) [[]]

/-- Python `str.strip()` on a character list. -/
def stripL (l : List Char) : List Char :=
  ((l.dropWhile Char.isWhitespace).reverse.dropWhile Char.isWhitespace).reverse

/-- Does `pat` occur as a contiguous sublist of `l`? (Python `in` on strings.) -/
def infixOfL (pat : List Char) : List Char → Bool
  | [] => pat.isEmpty
  | a :: rest => pat.isPrefixOf (a :: rest) || infixOfL pat rest

/-- Python `str.replace(pat, rep)`: replace every non-overlapping occurrence,
scanning left to right. The fuel argument (initially the list length) makes
the recursion structural. -/
def replL (pat rep : List Char) (l : List Char) : List Char := go l.length l
where
  go : Nat → List Char → List Char
  | _, [] => []
  | 0, l => l
  | fuel+1, a :: rest =>
    if pat.isPrefixOf (a :: rest) && !pat.isEmpty then
      rep ++ go fuel ((a :: rest).drop pat.length)
    else
      a :: go fuel rest

/-- Python `str.split(pat)` for a multi-character separator, keeping empty
segments. -/
def splitOnL (pat : List Char) (l : List Char) : List (List Char) := go l.length [] l
where
  go : Nat → List Char → List Char → List (List Char)
  | _, acc, [] => [acc.reverse]
  | 0, acc, l => [acc.reverse ++ l]
  | fuel+1, acc, a :: rest =>
    if pat.isPrefixOf (a :: rest) && !pat.isEmpty then
      acc.reverse :: go fuel [] ((a :: rest).drop pat.length)
    else
      go fuel (a :: acc) rest

/-- Python `s.strip()`. -/
def strip (s : String) : String := ⟨stripL s.data⟩

/-- Python `s.split('\n')`. -/
def linesOf (s : String) : List String := (splitPredL (fun c => c == '\n') s.data).map String.mk

/-- Python `s.split()` — split on whitespace runs, no empty tokens. -/
def splitWs (s : String) : List String :=
  ((splitPredL Char.isWhitespace s.data).filter (fun t => !t.isEmpty)).map String.mk

/-- Python `s.split(c)` for a single-character separator `c`. -/
def splitChar (c : Char) (s : String) : List String :=
  (splitPredL (fun a => a == c) s.data).map String.mk

/-- Python `s.split(pat)` for a string separator. -/
def splitStr (s pat : String) : List String := (splitOnL pat.data s.data).map String.mk

/-- Python `s.startswith(pre)`. -/
def startsWith (s pre : String) : Bool := pre.data.isPrefixOf s.data

/-- Python `s.endswith(suf)`. -/
def endsWith (s suf : String) : Bool := suf.data.isSuffixOf s.data

/-- Python `sub in s`. -/
def containsStr (s sub : String) : Bool := infixOfL sub.data s.data

/-- Python `s.replace(pat, rep)`. -/
def replace (s pat rep : String) : String := ⟨replL pat.data rep.data s.data⟩

/-- Python `s.rstrip(c)` for a single strip character. -/
def rstripChar (s : String) (c : Char) : String :=
  ⟨(s.data.reverse.dropWhile (fun a => a == c)).reverse⟩

/-- Python `s.lower()` (ASCII case folding, which is all the wrappers need). -/
def lower (s : String) : String := ⟨s.data.map Char.toLower⟩

/-- Python `sep.join(parts)`. -/
def joinSep (sep : String) (parts : List String) : String :=
  ⟨List.intercalate sep.data (parts.map String.data)⟩

/-- Python `s.split(c, 1)`: the part before the first `c` and the part after. -/
def splitFirst (c : Char) (s : String) : String × String :=
  (⟨s.data.takeWhile (fun a => a != c)⟩, ⟨(s.data.dropWhile (fun a => a != c)).drop 1⟩)

end Py

/-! ## Process model -/

/-- The observable result of `subprocess.run(..., check=False)` when the child
process started and terminated: exit code and the captured streams. -/
structure CompletedProcess where
  returncode : Int
  stdout : String
  stderr : String
deriving DecidableEq

/-- Outcome of a `subprocess.run` call made without a `timeout=` argument
(gobuster, nuclei, nmap, dnsrecon, nikto): the process completes, or the
binary is absent from PATH (`FileNotFoundError`), or some other exception is
raised and caught by the wrapper's generic `except Exception` clause. -/
inductive ProcOutcome where
  | ok (p : CompletedProcess)
  | fileNotFound
  | raised (msg : String)
deriving DecidableEq

/-- Outcome of a `subprocess.run` call made with a `timeout=` argument
(hashcat: 600s, enum4linux: 300s). `timedOut` carries the stdout buffered up
to the timeout, which `subprocess.TimeoutExpired` exposes and the wrappers
ignore. -/
inductive ProcOutcomeT where
  | ok (p : CompletedProcess)
  | fileNotFound
  | timedOut (bufferedStdout : String)
  | raised (msg : String)
deriving DecidableEq

/-- A filesystem fragment: association list from path to file contents. -/
abbrev Fs := List (String × String)

/-- Contents of the file at `p`, if it exists. -/
def fsRead (fs : Fs) (p : String) : Option String := (fs.find? (fun e => e.1 == p)).map (·.2)

/-- Delete the file at `p` (the wrappers' `rm` / `os.remove`). -/
def fsErase (fs : Fs) (p : String) : Fs := fs.filter (fun e => e.1 != p)

/-- Does a file exist at `p`? (`os.path.exists`). -/
def fsExists (fs : Fs) (p : String) : Bool := (fsRead fs p).isSome

/-! ## Gobuster (`src/cai/tools/reconnaissance/gobuster_tool.py`, `run_gobuster_dir`) -/

/-- One entry of `results["discovered_paths"]` (lines 64-69). -/
structure GobusterRecord where
  path : String
  status : Option String
  size : Option String
  full_url : String
deriving DecidableEq

/-- The dictionary returned by `run_gobuster_dir`: either `{"error": msg}`
or `{"discovered_paths": [...]}` with an optional `"warning"` key. -/
inductive GobusterDict where
  | error (msg : String)
  | result (discovered_paths : List GobusterRecord) (warning : Option String)
deriving DecidableEq

/-- Is the dictionary the `{"error": ...}` shape? -/
def GobusterDict.isError : GobusterDict → Bool
  | .error _ => true
  | .result _ _ => false

/-- Environment of one `run_gobuster_dir` call: what `subprocess.run` does,
and the filesystem at the moment the wrapper reads the scratch artifact. -/
structure GobusterEnv where
  proc : ProcOutcome
  fs : Fs

/-- The fixed scratch artifact path used by `run_gobuster_dir` (line 38). -/
def gobusterArtifact : String := "/tmp/gobuster_output.txt"

/-- Lines 49-69: turn one output line into a discovered-path record.
Returns `none` for lines that are empty, start with `'='`, or have fewer
than 3 whitespace-separated fields. The `Status:` / `[Size:` fields are
extracted by a loop over the fields that overwrites on each match, so the
last matching field wins, exactly as in the source. -/
def gobusterLineRecord (target_url line : String) : Option GobusterRecord :=
  if line != "" && !(Py.startsWith line "=") then
    let parts := Py.splitWs line
    if parts.length ≥ 3 then
      let f := parts.foldl (fun acc part =>
        if Py.startsWith part "Status:" then
          (some (Py.rstripChar (Py.replace part "Status:" "") ')'), acc.2)
        else if Py.startsWith part "[Size:" then
          (acc.1, some (Py.rstripChar (Py.replace part "[Size:" "") ']'))
        else acc) ((none : Option String), (none : Option String))
      some { path := parts.headD "", status := f.1, size := f.2,
             full_url := Py.rstripChar target_url '/' ++ parts.headD "" }
    else none
  else none

/-- Lines 46-69: parse records from stdout (guarded by `if process.stdout:`). -/
def gobusterParseStdout (target_url stdout : String) : List GobusterRecord :=
  if stdout != "" then
    (Py.linesOf (Py.strip stdout)).filterMap (gobusterLineRecord target_url)
  else []

/-- Lines 72-96: fold one line of the artifact file into the accumulated
records, skipping records whose `path` is already present (`# Avoid duplicates`). -/
def gobusterAddFileLine (target_url : String) (acc : List GobusterRecord) (rawLine : String) :
    List GobusterRecord :=
  match gobusterLineRecord target_url (Py.strip rawLine) with
  | none => acc
  | some r => if acc.any (fun p => p.path == r.path) then acc else acc ++ [r]

/-- Lines 46-98: records parsed from stdout, then from the artifact file when
it exists (`except FileNotFoundError: pass` otherwise). -/
def gobusterParseAll (target_url stdout : String) (fileContent : Option String) :
    List GobusterRecord :=
  let base := gobusterParseStdout target_url stdout
  match fileContent with
  | none => base
  | some content => (Py.linesOf content).foldl (gobusterAddFileLine target_url) base

/-- Lines 101-103: the execution-error message. -/
def gobusterErrMsg (p : CompletedProcess) : String :=
  "Gobuster process exited with error code " ++ toString p.returncode ++ "." ++
  (if p.stderr != "" then " Stderr: " ++ Py.strip p.stderr else "")

/-- Shallow embedding of `run_gobuster_dir` (gobuster_tool.py lines 9-121).
Returns the result dictionary together with the filesystem state after the
call. Cleanup of the scratch artifact (lines 110-114) is reached only on the
fall-through path: the hard-error return at line 106 and the exception
handlers at lines 118-121 return without deleting the artifact. -/
def run_gobuster_dir (target_url wordlist : String) (options : List String)
    (env : GobusterEnv) : GobusterDict × Fs :=
  if target_url == "" then
    (.error "No target URL specified for gobuster directory scan.", env.fs)
  else
    match env.proc with
    | .fileNotFound =>
        (.error "Gobuster command not found. Please ensure gobuster is installed and in your system PATH.", env.fs)
    | .raised m =>
        (.error ("An unexpected error occurred while running gobuster: " ++ m), env.fs)
    | .ok p =>
        let records := gobusterParseAll target_url p.stdout (fsRead env.fs gobusterArtifact)
        if p.returncode != 0 then
          if records.isEmpty then
            (.error (gobusterErrMsg p), env.fs)
          else
            (.result records (some (gobusterErrMsg p)), fsErase env.fs gobusterArtifact)
        else
          (.result records none, fsErase env.fs gobusterArtifact)

/-! ## Nuclei (`src/cai/tools/web/nuclei_tool.py`, `run_nuclei_scan`) -/

/-- The dictionary returned by `run_nuclei_scan`, polymorphic in the type `J`
of decoded JSON objects (the `json.loads` collaborator is an oracle).
`error` carries the optional `"stderr"` key of the error dictionary built at
line 75; the error dictionaries of lines 30, 81 and 83 have no such key. -/
inductive NucleiDict (J : Type) where
  | error (msg : String) (stderrField : Option String)
  | result (findings : List J) (warning : Option String) (info : Option String)
deriving DecidableEq

/-- Is the dictionary the `{"error": ...}` shape? -/
def NucleiDict.isError {J : Type} : NucleiDict J → Bool
  | .error _ _ => true
  | .result _ _ _ => false

/-- Line 42: user options conflicting with the mandated JSONL output flag. -/
def nucleiConflict (opt : String) : Bool :=
  Py.startsWith (Py.lower opt) "-json" || Py.startsWith (Py.lower opt) "-jsonl"

/-- Lines 32-45: the resolved nuclei argv. `templates = []` models
`templates=None` (both falsy in the source's `if templates:`). -/
def nucleiBuildCommand (target_urls templates options : List String) : List String :=
  let command := target_urls.foldl (fun acc u => acc ++ ["-u", u]) ["nuclei"]
  let command := if templates.isEmpty then command
                 else command ++ ["-t", Py.joinSep "," templates]
  let command := if options.isEmpty then command
                 else command ++ options.filter (fun o => !nucleiConflict o)
  command ++ ["-jsonl"]

/-- Lines 55-62: JSON-Lines parsing of stdout. One `json.loads` per non-empty
line; a line that fails to decode is dropped (`except ... pass`-equivalent)
and the remaining lines are still processed. -/
def nucleiParseStdout {J : Type} (jsonLoads : String → Option J) (stdout : String) : List J :=
  if stdout != "" then
    (Py.linesOf (Py.strip stdout)).filterMap
      (fun line => if line != "" then jsonLoads line else none)
  else []

/-- Lines 67-69: the execution-error message. -/
def nucleiErrMsg (p : CompletedProcess) : String :=
  "Nuclei process exited with error code " ++ toString p.returncode ++ "." ++
  (if p.stderr != "" then " Stderr: " ++ Py.strip p.stderr else "")

/-- Shallow embedding of `run_nuclei_scan` (nuclei_tool.py lines 8-83). -/
def run_nuclei_scan {J : Type} (jsonLoads : String → Option J)
    (target_urls templates options : List String) (env : ProcOutcome) : NucleiDict J :=
  if target_urls.isEmpty then
    .error "No target URLs specified for Nuclei scan." none
  else
    match env with
    | .fileNotFound =>
        .error "Nuclei command not found. Please ensure Nuclei is installed and in your system PATH." none
    | .raised m =>
        .error ("An unexpected error occurred while running Nuclei: " ++ m) none
    | .ok p =>
        let findings := nucleiParseStdout jsonLoads p.stdout
        if p.returncode != 0 then
          if findings.isEmpty then
            .error (nucleiErrMsg p) (some (if p.stderr != "" then Py.strip p.stderr else ""))
          else
            .result findings (some (nucleiErrMsg p)) none
        else
          .result findings none (if p.stderr != "" then some (Py.strip p.stderr) else none)

/-! ## Hashcat (`src/cai/tools/credential_access/hashcat_tool.py`, `run_hashcat_crack`) -/

/-- One entry of `results["cracked_hashes"]` (lines 71-74). -/
structure HashRec where
  hash : String
  password : String
deriving DecidableEq

/-- The non-error dictionary returned by `run_hashcat_crack` (lines 55-61):
`status` is the dictionary's own `"status"` key (`"completed"` or
`"exhausted"`); `warning` is the optional `"warning"` key of line 107. -/
structure HashcatRes where
  hash_type : String
  hash_file : String
  wordlist : String
  cracked_hashes : List HashRec
  status : String
  warning : Option String
deriving DecidableEq

/-- The dictionary returned by `run_hashcat_crack`. -/
inductive HashcatDict where
  | error (msg : String)
  | result (r : HashcatRes)
deriving DecidableEq

/-- Is the dictionary the `{"error": ...}` shape? -/
def HashcatDict.isError : HashcatDict → Bool
  | .error _ => true
  | .result _ => false

/-- Environment of one `run_hashcat_crack` call: the set of paths for which
`os.path.exists` holds, the `subprocess.run(..., timeout=600)` outcome, and
the current directory listing (file name and contents) scanned for potfiles. -/
structure HashcatEnv where
  files : List String
  proc : ProcOutcomeT
  cwd : List (String × String)

/-- Lines 63-74: cracked `hash:password` records parsed from stdout. A line
counts when it contains `':'` and starts with neither `'['` nor `"Session"`;
`split(':', 1)` then always yields exactly two parts. -/
def hashcatStdoutRecords (stdout : String) : List HashRec :=
  if stdout != "" then
    (Py.splitChar '\n' stdout).filterMap (fun l =>
      let line := Py.strip l
      if Py.containsStr line ":" && !(Py.startsWith line "[") && !(Py.startsWith line "Session") then
        let pr := Py.splitFirst ':' line
        some { hash := pr.1, password := pr.2 }
      else none)
  else []

/-- Lines 82-92: fold one potfile line into the accumulated records, skipping
hashes already present (`# Avoid duplicates`). -/
def hashcatAddPotLine (acc : List HashRec) (l : String) : List HashRec :=
  let line := Py.strip l
  if Py.containsStr line ":" then
    let pr := Py.splitFirst ':' line
    if acc.any (fun h => h.hash == pr.1) then acc
    else acc ++ [{ hash := pr.1, password := pr.2 }]
  else acc

/-- Lines 77-94: scan the current directory for `*.potfile` files (the
`filename == 'hashcat.potfile'` disjunct is kept from the source even though
it is subsumed by the suffix test) and merge their records. -/
def hashcatAddPotfiles (cwd : List (String × String)) (base : List HashRec) : List HashRec :=
  cwd.foldl (fun acc e =>
    if Py.endsWith e.1 ".potfile" || e.1 == "hashcat.potfile" then
      (Py.splitChar '\n' e.2).foldl hashcatAddPotLine acc
    else acc) base

/-- Lines 100-102: the execution-error message. -/
def hashcatErrMsg (p : CompletedProcess) : String :=
  "Hashcat process exited with error code " ++ toString p.returncode ++ "." ++
  (if p.stderr != "" then " Stderr: " ++ Py.strip p.stderr else "")

/-- Shallow embedding of `run_hashcat_crack` (hashcat_tool.py lines 10-116).
Exit code 1 is special-cased at lines 97-98: the status key becomes
`"exhausted"` and no error or warning is attached. -/
def run_hashcat_crack (hash_file wordlist hash_type : String) (options : List String)
    (env : HashcatEnv) : HashcatDict :=
  if hash_file == "" || !(env.files.contains hash_file) then
    .error ("Hash file not found: " ++ hash_file)
  else if wordlist == "" || !(env.files.contains wordlist) then
    .error ("Wordlist file not found: " ++ wordlist)
  else
    match env.proc with
    | .timedOut _ => .error "Hashcat process timed out after 10 minutes."
    | .fileNotFound =>
        .error "Hashcat command not found. Please ensure hashcat is installed and in your system PATH."
    | .raised m => .error ("An unexpected error occurred while running hashcat: " ++ m)
    | .ok p =>
        let cracked := hashcatAddPotfiles env.cwd (hashcatStdoutRecords p.stdout)
        if p.returncode != 0 then
          if p.returncode == 1 then
            .result { hash_type := hash_type, hash_file := hash_file, wordlist := wordlist,
                      cracked_hashes := cracked, status := "exhausted", warning := none }
          else if cracked.isEmpty then
            .error (hashcatErrMsg p)
          else
            .result { hash_type := hash_type, hash_file := hash_file, wordlist := wordlist,
                      cracked_hashes := cracked, status := "completed", warning := some (hashcatErrMsg p) }
        else
          .result { hash_type := hash_type, hash_file := hash_file, wordlist := wordlist,
                    cracked_hashes := cracked, status := "completed", warning := none }

/-! ## Enum4linux (`src/cai/tools/reconnaissance/enum4linux_tool.py`, `run_enum4linux_scan`) -/

/-- One entry of `results["shares"]` (lines 103-107). -/
structure E4LShare where
  name : String
  share_type : String
  comment : String
deriving DecidableEq

/-- Parsing state threaded through the line loop of lines 50-107.
`os_info_present` records whether `results["os_info"]` has been initialised
from `None` to a dictionary. -/
structure E4LState where
  workgroup_domain : Option String
  os_name : Option String
  os_version : Option String
  os_info_present : Bool
  users : List String
  groups : List String
  shares : List E4LShare
  cur_section : Option String
deriving DecidableEq

/-- The initial parsing state (lines 37-47, `current_section = None`). -/
def e4lInit : E4LState :=
  { workgroup_domain := none, os_name := none, os_version := none, os_info_present := false,
    users := [], groups := [], shares := [], cur_section := none }

/-- Lines 53-107: process one stdout line. Translated clause by clause:
workgroup/domain extraction (the `Workgroup:` branch only fires while
`workgroup_domain` is still falsy), OS info, section-keyword transitions, and
the per-section `user:` / `group:` / tab-separated share parsers. -/
def e4lStep (st : E4LState) (l : String) : E4LState :=
  let line := Py.strip l
  let st :=
    if Py.containsStr line "Domain Name:" then
      { st with workgroup_domain := some (Py.strip ((Py.splitStr line "Domain Name:").getLastD "")) }
    else if Py.containsStr line "Workgroup:" then
      if st.workgroup_domain.getD "" == "" then
        { st with workgroup_domain := some (Py.strip ((Py.splitStr line "Workgroup:").getLastD "")) }
      else st
    else st
  let st :=
    if Py.containsStr line "OS name:" then
      { st with os_name := some (Py.strip ((Py.splitStr line "OS name:").getLastD "")),
                os_info_present := true }
    else if Py.containsStr line "OS version:" then
      { st with os_version := some (Py.strip ((Py.splitStr line "OS version:").getLastD "")),
                os_info_present := true }
    else st
  let st :=
    if Py.containsStr line "Getting the global users list" then { st with cur_section := some "users" }
    else if Py.containsStr line "Getting the group list" then { st with cur_section := some "groups" }
    else if Py.containsStr line "Getting the available shares" then { st with cur_section := some "shares" }
    else if Py.containsStr line "Getting the password policy" then { st with cur_section := some "policies" }
    else if Py.containsStr line "Getting the printer list" then { st with cur_section := some "printers" }
    else st
  let st :=
    if st.cur_section == some "users" && Py.startsWith line "user:" then
      let user_info := Py.strip (Py.replace line "user:" "")
      if user_info != "" then { st with users := st.users ++ [user_info] } else st
    else st
  let st :=
    if st.cur_section == some "groups" && Py.startsWith line "group:" then
      let group_info := Py.strip (Py.replace line "group:" "")
      if group_info != "" then { st with groups := st.groups ++ [group_info] } else st
    else st
  if st.cur_section == some "shares" && Py.containsStr line "\t" && !(Py.startsWith line "index") then
    let parts := ((Py.splitChar '\t' line).map Py.strip).filter (fun s => s != "")
    if parts.length ≥ 2 then
      { st with shares := st.shares ++
          [{ name := parts.headD "",
             share_type := (parts.drop 1).headD "Unknown",
             comment := (parts.drop 2).headD "" }] }
    else st
  else st

/-- The non-error dictionary returned by `run_enum4linux_scan` (lines 37-47);
`policies` and `printers` stay empty because no parsing clause fills them. -/
structure E4LRes where
  target : String
  workgroup_domain : Option String
  os_name : Option String
  os_version : Option String
  os_info_present : Bool
  users : List String
  groups : List String
  shares : List E4LShare
  raw_output : String
  warning : Option String
deriving DecidableEq

/-- The dictionary returned by `run_enum4linux_scan`. -/
inductive E4LDict where
  | error (msg : String)
  | result (r : E4LRes)
deriving DecidableEq

/-- Is the dictionary the `{"error": ...}` shape? -/
def E4LDict.isError : E4LDict → Bool
  | .error _ => true
  | .result _ => false

/-- Lines 110-112: the execution-error message. -/
def e4lErrMsg (p : CompletedProcess) : String :=
  "Enum4linux process exited with error code " ++ toString p.returncode ++ "." ++
  (if p.stderr != "" then " Stderr: " ++ Py.strip p.stderr else "")

/-- Shallow embedding of `run_enum4linux_scan` (enum4linux_tool.py lines
9-126), with `subprocess.run(..., timeout=300)`. -/
def run_enum4linux_scan (target : String) (options : List String) (env : ProcOutcomeT) :
    E4LDict :=
  if target == "" then .error "No target specified for enum4linux scan."
  else
    match env with
    | .timedOut _ => .error "Enum4linux scan timed out after 5 minutes."
    | .fileNotFound =>
        .error "Enum4linux command not found. Please ensure enum4linux is installed and in your system PATH."
    | .raised m => .error ("An unexpected error occurred while running enum4linux: " ++ m)
    | .ok p =>
        let st := if p.stdout != "" then (Py.splitChar '\n' p.stdout).foldl e4lStep e4lInit
                  else e4lInit
        let res : E4LRes :=
          { target := target, workgroup_domain := st.workgroup_domain, os_name := st.os_name,
            os_version := st.os_version, os_info_present := st.os_info_present,
            users := st.users, groups := st.groups, shares := st.shares,
            raw_output := p.stdout, warning := none }
        if p.returncode != 0 then
          if st.users.isEmpty && st.groups.isEmpty && st.shares.isEmpty then
            .error (e4lErrMsg p)
          else
            .result { res with warning := some (e4lErrMsg p) }
        else
          .result res

/-! ## Nmap (`src/cai/tools/reconnaissance/nmap_tool.py`, `run_nmap_scan`) -/

/-- Line 119: user options conflicting with the mandated `-oX -` output flags. -/
def nmapConflict (opt : String) : Bool :=
  Py.startsWith opt "-oX" || Py.startsWith opt "-oA" || Py.startsWith opt "-oG" ||
  Py.startsWith opt "-oS" || Py.startsWith opt "-oN"

/-- Lines 116-124: the resolved nmap argv. `options = []` models
`options=None` (both falsy in the source's `if options:`). -/
def nmapBuildCommand (targets options : List String) : List String :=
  let command := ["nmap"]
  let command := if options.isEmpty then command
                 else command ++ options.filter (fun o => !nmapConflict o)
  command ++ targets ++ ["-oX", "-"]

/-- Result of `parse_nmap_xml_output` (lines 8-99), abstracted over the host
tree `H` built by the XML collaborator: either the parse-error dictionary of
lines 96/99 (`"error"` plus `"details"`) or a parsed document. No claim
concerns the XML record shaping, so `parse_nmap_xml_output` is an oracle
parameter of the embedding. -/
inductive NmapParsed (H : Type) where
  | perr (msg details : String)
  | doc (hosts : H)
deriving DecidableEq

/-- The dictionary returned by `run_nmap_scan`: a plain error, the
parse-error dictionary (whose `"details"` line 143 may extend), or a parsed
document with the optional `"warning"` of line 141. -/
inductive NmapDict (H : Type) where
  | error (msg : String)
  | perrDict (msg details : String)
  | parsed (hosts : H) (warning : Option String)
deriving DecidableEq

/-- Lines 133-135: the execution-error message. -/
def nmapErrMsg (p : CompletedProcess) : String :=
  "Nmap process exited with error code " ++ toString p.returncode ++ "." ++
  (if p.stderr != "" then " Stderr: " ++ Py.strip p.stderr else "")

/-- Shallow embedding of `run_nmap_scan` (nmap_tool.py lines 101-154). -/
def run_nmap_scan {H : Type} (parseNmapXmlOutput : String → NmapParsed H)
    (targets options : List String) (env : ProcOutcome) : NmapDict H :=
  if targets.isEmpty then .error "No targets specified for Nmap scan."
  else
    match env with
    | .fileNotFound =>
        .error "Nmap command not found. Please ensure Nmap is installed and in your system PATH."
    | .raised m => .error ("An unexpected error occurred while running Nmap: " ++ m)
    | .ok p =>
        if p.returncode != 0 then
          if p.stdout == "" then .error (nmapErrMsg p)
          else
            match parseNmapXmlOutput p.stdout with
            | .doc h => .parsed h (some (nmapErrMsg p))
            | .perr m d => .perrDict m (d ++ "; Nmap execution: " ++ nmapErrMsg p)
        else if p.stdout == "" then .error "Nmap produced no output."
        else
          match parseNmapXmlOutput p.stdout with
          | .doc h => .parsed h none
          | .perr m d => .perrDict m d

/-! ## Nikto (`src/cai/tools/web/nikto_tool.py`, command construction) -/

/-- Lines 63-65: user options conflicting with the mandated
`-Format json -o <tempfile>` output flags (case-insensitive prefix match;
`-format` and `-output` are subsumed by the `-f` / `-o` prefixes but kept
from the source). -/
def niktoConflict (opt : String) : Bool :=
  Py.startsWith (Py.lower opt) "-f" || Py.startsWith (Py.lower opt) "-format" ||
  Py.startsWith (Py.lower opt) "-o" || Py.startsWith (Py.lower opt) "-output"

/-- Lines 48-66: the resolved nikto argv, given the host, the port string and
scheme extracted from the target URL by the `urllib.parse` collaborator, and
the unique temporary output file name from the `tempfile` collaborator. -/
def niktoBuildCommand (scheme host portStr tempFile : String) (options : List String) :
    List String :=
  let command := ["nikto", "-h", host, "-p", portStr]
  let command := if scheme == "https" then command ++ ["-ssl"] else command
  let command := command ++ ["-Format", "json", "-o", tempFile]
  if options.isEmpty then command
  else command ++ options.filter (fun o => !niktoConflict o)

/-! ## DNSRecon (`src/cai/tools/reconnaissance/dnsrecon_tool.py`) -/

/-- One entry of `results["dns_records"]` (lines 65-70). -/
structure DnsRec where
  record_type : String
  name : String
  value : String
  raw : String
deriving DecidableEq

/-- What `json.load` yields on the artifact file (lines 45-50), abstracted
over the type `D` of decoded non-list JSON documents: a decode failure
(`json.JSONDecodeError`), a JSON list of records, or some other document
(merged into the result by `results.update`, carried opaquely here since no
claim concerns it). -/
inductive DnsJson (D : Type) where
  | jerr
  | jlist (records : List DnsRec)
  | jdict (doc : D)
deriving DecidableEq

/-- The dictionary returned by `run_dnsrecon_scan`: either `{"error": msg}`
or the results dictionary of line 41 (with `extra` holding an opaque document
merged by `results.update` in the `isinstance(json_data, dict)` case). -/
inductive DnsDict (D : Type) where
  | error (msg : String)
  | result (dns_records : List DnsRec) (scan_type domain : String)
           (extra : Option D) (warning : Option String)
deriving DecidableEq

/-- Is the dictionary the `{"error": ...}` shape? -/
def DnsDict.isError {D : Type} : DnsDict D → Bool
  | .error _ => true
  | _ => false

/-- The record-type keyword set of lines 58-61. -/
def dnsRecordTypes : List String := ["A", "AAAA", "CNAME", "MX", "NS", "SOA", "TXT"]

/-- Lines 54-70: the stdout fallback parser, one record per qualifying line. -/
def dnsreconLineRecord (l : String) : Option DnsRec :=
  let line := Py.strip l
  if line != "" && !(Py.startsWith line "[") then
    if dnsRecordTypes.any (fun t => Py.containsStr line t) then
      let parts := Py.splitWs line
      if parts.length ≥ 3 then
        some { record_type := if dnsRecordTypes.contains (parts.headD "") then parts.headD ""
                              else "Unknown",
               name := (parts.drop 1).headD "",
               value := Py.joinSep " " (parts.drop 2),
               raw := line }
      else none
    else none
  else none

/-- Lines 28-35: the resolved dnsrecon argv with the mandated JSON artifact
flag added unless the user already supplied one. -/
def dnsreconBuildCommand (domain scan_type : String) (options : List String) : List String :=
  let command := ["dnsrecon", "-d", domain, "-t", scan_type] ++ options
  if !(command.contains "-j") && !(command.contains "--json") then
    command ++ ["-j", "/tmp/dnsrecon_output.json"]
  else command

/-- Environment of one `run_dnsrecon_scan` call. -/
structure DnsEnv where
  proc : ProcOutcome
  fs : Fs

/-- Lines 72-75: the execution-error message. -/
def dnsreconErrMsg (p : CompletedProcess) : String :=
  "DNSRecon process exited with error code " ++ toString p.returncode ++ "." ++
  (if p.stderr != "" then " Stderr: " ++ Py.strip p.stderr else "")

/-- Shallow embedding of `run_dnsrecon_scan` (dnsrecon_tool.py lines 9-93).
The second component records whether `subprocess.run` was reached: the
missing-domain check at lines 25-26 returns before the command is even
built. `jsonLoad` is the `json.load` collaborator applied to the artifact
file contents; a missing file or a decode failure falls back to the stdout
parser (lines 51-70). The artifact cleanup of lines 82-86 is reached only on
the fall-through path, mirroring the source. -/
def run_dnsrecon_scan {D : Type} (jsonLoad : String → DnsJson D)
    (domain scan_type : String) (options : List String) (env : DnsEnv) :
    (DnsDict D × Fs) × Bool :=
  if domain == "" then ((.error "No domain specified for dnsrecon scan.", env.fs), false)
  else
    match env.proc with
    | .fileNotFound =>
        ((.error "DNSRecon command not found. Please ensure dnsrecon is installed and in your system PATH.", env.fs), true)
    | .raised m =>
        ((.error ("An unexpected error occurred while running dnsrecon: " ++ m), env.fs), true)
    | .ok p =>
        let parsed : List DnsRec × Option D :=
          match fsRead env.fs "/tmp/dnsrecon_output.json" with
          | none =>
              (if p.stdout != "" then
                 (Py.linesOf (Py.strip p.stdout)).filterMap dnsreconLineRecord
               else [], none)
          | some content =>
              match jsonLoad content with
              | .jerr =>
                  (if p.stdout != "" then
                     (Py.linesOf (Py.strip p.stdout)).filterMap dnsreconLineRecord
                   else [], none)
              | .jlist rs => (rs, none)
              | .jdict d => ([], some d)
        if p.returncode != 0 then
          if parsed.1.isEmpty then ((.error (dnsreconErrMsg p), env.fs), true)
          else
            ((.result parsed.1 scan_type domain parsed.2 (some (dnsreconErrMsg p)),
              fsErase env.fs "/tmp/dnsrecon_output.json"), true)
        else
          ((.result parsed.1 scan_type domain parsed.2 none,
            fsErase env.fs "/tmp/dnsrecon_output.json"), true)

/-- Shallow embedding of `dnsrecon_reverse_lookup` (dnsrecon_tool.py lines
143-155): delegates to `run_dnsrecon_scan` with an empty domain, scan type
`"rvl"` and options `["-r", ip_range]` (the `json.dumps` serialization of the
returned dictionary is elided). -/
def dnsrecon_reverse_lookup {D : Type} (jsonLoad : String → DnsJson D)
    (ip_range : String) (env : DnsEnv) : (DnsDict D × Fs) × Bool :=
  run_dnsrecon_scan jsonLoad "" "rvl" ["-r", ip_range] env

/-! ## Helper lemmas -/

/-- The length of `filterMap f` is the number of elements on which `f`
succeeds. -/
theorem length_filterMap_isSome {α β : Type} (f : α → Option β) (l : List α) :
    (l.filterMap f).length = (l.filter (fun a => (f a).isSome)).length := by
  induction l with
  | nil => rfl
  | cons a t ih => cases h : f a <;> simp [List.filterMap_cons, List.filter_cons, h, ih]

/-- Membership in the fold that translates nuclei's `for url in target_urls:
command.extend(["-u", url])` loop. -/
theorem mem_foldl_extend_u (l init : List String) (o : String) :
    o ∈ l.foldl (fun acc u => acc ++ ["-u", u]) init ↔
      o ∈ init ∨ (l ≠ [] ∧ o = "-u") ∨ o ∈ l := by
  induction l generalizing init with
  | nil => simp
  | cons a t ih =>
    simp only [List.foldl_cons, ih, List.mem_append, List.mem_cons,
      List.mem_singleton, List.not_mem_nil, ne_eq, List.cons_ne_nil,
      not_false_eq_true, true_and]
    by_cases ht : t = [] <;> (simp [ht]; try tauto)

/-! ## Claim theorems -/

/-- C8: for every line-oriented or JSON-Lines tool output, the parser yields
exactly one record per well-formed line and drops malformed lines without
aborting: the number of parsed records equals the number of well-formed
lines. For nuclei (JSON Lines, nuclei_tool.py lines 55-62) a line is
well-formed when it is non-empty and `json.loads` succeeds on it; for
gobuster (line-oriented, gobuster_tool.py lines 47-69) when
`gobusterLineRecord` accepts it (non-empty, not a `'='` banner, at least 3
whitespace-separated fields). Both parsers are total folds over all lines,
so a malformed line never aborts the remaining lines. -/
theorem c8_parsers_drop_malformed_lines :
    (∀ (J : Type) (jsonLoads : String → Option J) (stdout : String),
       (nucleiParseStdout jsonLoads stdout).length
         = ((Py.linesOf (Py.strip stdout)).filter
             (fun line => line != "" && (jsonLoads line).isSome)).length)
  ∧ (∀ target_url stdout : String,
       (gobusterParseStdout target_url stdout).length
         = ((Py.linesOf (Py.strip stdout)).filter
             (fun line => (gobusterLineRecord target_url line).isSome)).length) := by
  constructor
  · intro J jl stdout
    unfold nucleiParseStdout
    by_cases h : stdout = ""
    · subst h; rfl
    · have hb : (stdout != "") = true := by simp [h]
      rw [hb]
      simp only [if_true]
      rw [length_filterMap_isSome]
      apply congrArg List.length
      apply List.filter_congr
      intro x _
      by_cases hx : x = "" <;> simp [hx]
  · intro target_url stdout
    unfold gobusterParseStdout
    by_cases h : stdout = ""
    · subst h; rfl
    · have hb : (stdout != "") = true := by simp [h]
      rw [hb]
      simp only [if_true]
      exact length_filterMap_isSome _ _

/-- C9: `dnsrecon_reverse_lookup` (dnsrecon_tool.py lines 143-155) passes an
empty domain to `run_dnsrecon_scan`, whose missing-target check (lines 25-26)
fires before the command is built, so for every `ip_range`, every filesystem
and every process behaviour the call returns the
`"No domain specified for dnsrecon scan."` error, leaves the filesystem
untouched, and never executes dnsrecon (second component `false`); the
`-r ip_range` option is never used (the result does not depend on
`ip_range`). -/
theorem c9_reverse_lookup_never_runs :
    ∀ (D : Type) (jsonLoad : String → DnsJson D) (ip_range : String) (env : DnsEnv),
      dnsrecon_reverse_lookup jsonLoad ip_range env
        = ((.error "No domain specified for dnsrecon scan.", env.fs), false) := by
  intro D jl ip env
  rfl

/-- C6: the command builders of nmap (nmap_tool.py lines 116-124), nuclei
(nuclei_tool.py lines 32-45) and nikto (nikto_tool.py lines 48-66) filter out
every user option that prefix-matches the tool's conflict set of
output-format/output-path flags, and the resolved argv contains the
tool-mandated output flags. Stated as a complete membership characterization
of each resolved argv: a string is in the argv exactly when it is the base
command, a target contribution, a mandated default, or a user option that
does NOT match the conflict set — so conflicting user options never survive
and the mandated defaults always do. -/
theorem c6_builders_filter_conflicting_output_flags :
    (∀ targets options o, o ∈ nmapBuildCommand targets options ↔
        (o = "nmap" ∨ (o ∈ options ∧ nmapConflict o = false) ∨ o ∈ targets
         ∨ o = "-oX" ∨ o = "-"))
  ∧ (∀ target_urls templates options o, o ∈ nucleiBuildCommand target_urls templates options ↔
        (o = "nuclei" ∨ (target_urls ≠ [] ∧ o = "-u") ∨ o ∈ target_urls
         ∨ (templates ≠ [] ∧ (o = "-t" ∨ o = Py.joinSep "," templates))
         ∨ (o ∈ options ∧ nucleiConflict o = false) ∨ o = "-jsonl"))
  ∧ (∀ scheme host portStr tempFile options o,
        o ∈ niktoBuildCommand scheme host portStr tempFile options ↔
        (o = "nikto" ∨ o = "-h" ∨ o = host ∨ o = "-p" ∨ o = portStr
         ∨ (scheme = "https" ∧ o = "-ssl")
         ∨ o = "-Format" ∨ o = "json" ∨ o = "-o" ∨ o = tempFile
         ∨ (o ∈ options ∧ niktoConflict o = false))) := by
  refine ⟨?_, ?_, ?_⟩
  · intro targets options o
    unfold nmapBuildCommand
    cases hop : options.isEmpty
    · simp [hop, List.mem_filter]
      try tauto
    · have h0 : options = [] := List.isEmpty_iff.mp hop
      subst h0
      simp
      try tauto
  · intro target_urls templates options o
    unfold nucleiBuildCommand
    cases hte : templates.isEmpty <;> cases hop : options.isEmpty
    · have h1 : templates ≠ [] := by
        intro hc; subst hc; simp at hte
      simp [hte, hop, mem_foldl_extend_u, List.mem_filter, h1]
      try tauto
    · have h1 : templates ≠ [] := by
        intro hc; subst hc; simp at hte
      have h2 : options = [] := List.isEmpty_iff.mp hop
      subst h2
      simp [hte, mem_foldl_extend_u, h1]
      try tauto
    · have h1 : templates = [] := List.isEmpty_iff.mp hte
      subst h1
      simp [hop, mem_foldl_extend_u, List.mem_filter]
      try tauto
    · have h1 : templates = [] := List.isEmpty_iff.mp hte
      have h2 : options = [] := List.isEmpty_iff.mp hop
      subst h1; subst h2
      simp [mem_foldl_extend_u]
      try tauto
  · intro scheme host portStr tempFile options o
    unfold niktoBuildCommand
    cases hs : scheme == "https" <;> cases hop : options.isEmpty
    · have hsne : ¬(scheme = "https") := by
        intro hc; subst hc; simp at hs
      simp [hs, hop, List.mem_filter, hsne]
      try tauto
    · have hsne : ¬(scheme = "https") := by
        intro hc; subst hc; simp at hs
      have h2 : options = [] := List.isEmpty_iff.mp hop
      subst h2
      simp [hs, hsne]
      try tauto
    · have hseq : scheme = "https" := eq_of_beq hs
      simp [hs, hop, List.mem_filter, hseq]
      try tauto
    · have hseq : scheme = "https" := eq_of_beq hs
      have h2 : options = [] := List.isEmpty_iff.mp hop
      subst h2
      simp [hs, hseq]
      try tauto

/-- A string append whose left part is non-empty is non-empty. -/
theorem append_ne_empty_left (a b : String) (ha : a ≠ "") : a ++ b ≠ "" := by
  intro h
  apply ha
  have hd := congrArg String.data h
  rw [String.data_append] at hd
  have hnil : a.data = [] := (List.append_eq_nil.mp (by simpa using hd)).1
  cases a with
  | mk d =>
    simp only [String.data] at hnil
    simp [hnil]

/-- The gobuster execution-error message is never empty. -/
theorem gobusterErrMsg_ne_empty (p : CompletedProcess) : gobusterErrMsg p ≠ "" := by
  unfold gobusterErrMsg
  exact append_ne_empty_left _ _ (append_ne_empty_left _ _ (append_ne_empty_left _ _ (by decide)))

/-- The nuclei execution-error message is never empty. -/
theorem nucleiErrMsg_ne_empty (p : CompletedProcess) : nucleiErrMsg p ≠ "" := by
  unfold nucleiErrMsg
  exact append_ne_empty_left _ _ (append_ne_empty_left _ _ (append_ne_empty_left _ _ (by decide)))

/-- C1 counterexample: a hashcat invocation whose process exits with code 1
(non-zero) while zero records were parsed does NOT return a status-error
result: `run_hashcat_crack` (hashcat_tool.py lines 96-98) special-cases exit
code 1 and returns the `"exhausted"` result dictionary with no `"error"` key
and no exit-code message, refuting the claim's universal quantification over
non-zero exit codes. -/
theorem c1_counterexample_hashcat_exit1 :
    run_hashcat_crack "h.txt" "rock.txt" "0" []
        { files := ["h.txt", "rock.txt"],
          proc := .ok { returncode := 1, stdout := "", stderr := "boom" }, cwd := [] }
      = .result { hash_type := "0", hash_file := "h.txt", wordlist := "rock.txt",
                  cracked_hashes := [], status := "exhausted", warning := none }
  ∧ HashcatDict.isError
      (run_hashcat_crack "h.txt" "rock.txt" "0" []
        { files := ["h.txt", "rock.txt"],
          proc := .ok { returncode := 1, stdout := "", stderr := "boom" }, cwd := [] })
      = false := by
  constructor <;> rfl

/-- C1 (amended): when the external process starts and exits with a non-zero
exit code while zero records were parsed, the wrapper returns a result whose
`error` message states the exit code, appends the stripped stderr when
stderr is non-empty, and carries no records — for gobuster
(gobuster_tool.py lines 100-106) for every non-zero exit code, and for
hashcat (hashcat_tool.py lines 96-107) for every non-zero exit code EXCEPT
exit code 1, which the source treats as the benign "wordlist exhausted"
outcome. -/
theorem c1_amended_nonzero_exit_no_records_error :
    (∀ (target_url wordlist : String) (options : List String) (fs : Fs)
       (p : CompletedProcess),
       target_url ≠ "" → p.returncode ≠ 0 →
       gobusterParseAll target_url p.stdout (fsRead fs gobusterArtifact) = [] →
       (run_gobuster_dir target_url wordlist options { proc := .ok p, fs := fs }).1
         = .error ("Gobuster process exited with error code " ++ toString p.returncode ++ "."
             ++ (if p.stderr != "" then " Stderr: " ++ Py.strip p.stderr else "")))
  ∧ (∀ (hash_file wordlist hash_type : String) (options : List String)
       (files : List String) (cwd : List (String × String)) (p : CompletedProcess),
       hash_file ≠ "" → files.contains hash_file = true →
       wordlist ≠ "" → files.contains wordlist = true →
       p.returncode ≠ 0 → p.returncode ≠ 1 →
       hashcatAddPotfiles cwd (hashcatStdoutRecords p.stdout) = [] →
       run_hashcat_crack hash_file wordlist hash_type options
           { files := files, proc := .ok p, cwd := cwd }
         = .error ("Hashcat process exited with error code " ++ toString p.returncode ++ "."
             ++ (if p.stderr != "" then " Stderr: " ++ Py.strip p.stderr else ""))) := by
  constructor
  · intro url wl opts fs p hurl hrc hrec
    have h0 : (url == "") = false := by simp [hurl]
    have h1 : (p.returncode != 0) = true := by simp [hrc]
    simp [run_gobuster_dir, h0, h1, hrec, gobusterErrMsg]
  · intro hf wl ht opts files cwd p hhf hcf hwl hcw hrc hr1
    intro hrec
    have h0 : (hf == "") = false := by simp [hhf]
    have h1 : (wl == "") = false := by simp [hwl]
    have h2 : (p.returncode != 0) = true := by simp [hrc]
    have h3 : (p.returncode == 1) = false := by simp [hr1]
    have hm1 : hf ∈ files := by simpa using hcf
    have hm2 : wl ∈ files := by simpa using hcw
    simp [run_hashcat_crack, h0, h1, h2, h3, hm1, hm2, hrec, hashcatErrMsg]

/-- Witness for the amended C1 theorem at concrete inputs. -/
theorem c1_amended_witness :
    (run_gobuster_dir "http://t" "words.txt" []
        { proc := .ok { returncode := 2, stdout := "", stderr := "boom" }, fs := [] }).1
      = .error "Gobuster process exited with error code 2. Stderr: boom"
  ∧ run_hashcat_crack "h.txt" "rock.txt" "0" []
        { files := ["h.txt", "rock.txt"],
          proc := .ok { returncode := 255, stdout := "", stderr := "x" }, cwd := [] }
      = .error "Hashcat process exited with error code 255. Stderr: x" := by
  constructor
  · exact c1_amended_nonzero_exit_no_records_error.1 "http://t" "words.txt" [] []
      { returncode := 2, stdout := "", stderr := "boom" } (by decide) (by decide) rfl
  · exact c1_amended_nonzero_exit_no_records_error.2 "h.txt" "rock.txt" "0" []
      ["h.txt", "rock.txt"] [] { returncode := 255, stdout := "", stderr := "x" }
      (by decide) (by decide) (by decide) (by decide) (by decide) (by decide) rfl

/-- C2: when the external process exits with a non-zero exit code but at
least one record was parsed, the result keeps the parsed records unchanged
and attaches a non-empty warning equal to the execution-error message (exit
code plus stderr), with no error field — for gobuster (gobuster_tool.py
lines 100-108) and nuclei (nuclei_tool.py lines 66-78), the wrappers the
claim cites. (This is the spec's `partial` status: records present together
with a warning.) -/
theorem c2_nonzero_exit_with_records_partial :
    (∀ (target_url wordlist : String) (options : List String) (fs : Fs)
       (p : CompletedProcess) (records : List GobusterRecord),
       target_url ≠ "" → p.returncode ≠ 0 →
       records = gobusterParseAll target_url p.stdout (fsRead fs gobusterArtifact) →
       records ≠ [] →
       (run_gobuster_dir target_url wordlist options { proc := .ok p, fs := fs }).1
           = .result records (some (gobusterErrMsg p))
         ∧ gobusterErrMsg p ≠ "")
  ∧ (∀ (J : Type) (jsonLoads : String → Option J)
       (target_urls templates options : List String) (p : CompletedProcess),
       target_urls ≠ [] → p.returncode ≠ 0 →
       nucleiParseStdout jsonLoads p.stdout ≠ [] →
       run_nuclei_scan jsonLoads target_urls templates options (.ok p)
           = .result (nucleiParseStdout jsonLoads p.stdout) (some (nucleiErrMsg p)) none
         ∧ nucleiErrMsg p ≠ "") := by
  constructor
  · intro url wl opts fs p records hurl hrc hrec hne
    refine ⟨?_, gobusterErrMsg_ne_empty p⟩
    have h0 : (url == "") = false := by simp [hurl]
    have h1 : (p.returncode != 0) = true := by simp [hrc]
    have h2 : (gobusterParseAll url p.stdout (fsRead fs gobusterArtifact)).isEmpty = false := by
      rw [← hrec]
      cases records with
      | nil => exact absurd rfl hne
      | cons a t => rfl
    simp [run_gobuster_dir, h0, h1, h2, hrec]
  · intro J jl urls templates opts p hurls hrc hne
    refine ⟨?_, nucleiErrMsg_ne_empty p⟩
    have h0 : urls.isEmpty = false := by
      cases urls with
      | nil => exact absurd rfl hurls
      | cons a t => rfl
    have h1 : (p.returncode != 0) = true := by simp [hrc]
    have h2 : (nucleiParseStdout jl p.stdout).isEmpty = false := by
      cases hx : nucleiParseStdout jl p.stdout with
      | nil => exact absurd hx hne
      | cons a t => rfl
    simp [run_nuclei_scan, h0, h1, h2]

/-- Witness for the C2 theorem at concrete inputs: gobuster with exit code
137 and one record parsed from stdout, and nuclei with exit code 137 and one
JSON-Lines finding. -/
theorem c2_witness :
    ((run_gobuster_dir "http://t" "words.txt" []
        { proc := .ok { returncode := 137, stdout := "/admin (Status: 200)", stderr := "killed" },
          fs := [] }).1
        = .result [{ path := "/admin", status := none, size := none,
                     full_url := "http://t/admin" }]
            (some "Gobuster process exited with error code 137. Stderr: killed")
      ∧ gobusterErrMsg { returncode := 137, stdout := "/admin (Status: 200)", stderr := "killed" } ≠ "")
  ∧ (run_nuclei_scan (fun s => if s = "{}" then some 0 else (none : Option Nat))
        ["http://t"] [] [] (.ok { returncode := 137, stdout := "{}", stderr := "killed" })
        = .result [0] (some "Nuclei process exited with error code 137. Stderr: killed") none
      ∧ nucleiErrMsg { returncode := 137, stdout := "{}", stderr := "killed" } ≠ "") := by
  constructor
  · exact c2_nonzero_exit_with_records_partial.1 "http://t" "words.txt" [] []
      { returncode := 137, stdout := "/admin (Status: 200)", stderr := "killed" }
      [{ path := "/admin", status := none, size := none, full_url := "http://t/admin" }]
      (by decide) (by decide) (by decide) (by decide)
  · exact c2_nonzero_exit_with_records_partial.2 Nat
      (fun s => if s = "{}" then some 0 else none) ["http://t"] [] []
      { returncode := 137, stdout := "{}", stderr := "killed" }
      (by decide) (by decide) (by decide)

/-- C3: when the bounded timeout is exceeded (`subprocess.TimeoutExpired`),
the wrapper returns a status-error result with the timeout message and no
records — for hashcat (hashcat_tool.py lines 111-112, timeout 600s) and
enum4linux (enum4linux_tool.py lines 121-122, timeout 300s), the wrappers
the claim cites. The claim's "unless partial records were already parsed"
branch is vacuous in the source: parsing runs only after `subprocess.run`
returns, so no records are ever parsed before a timeout — expressed here by
the result being the error dictionary for EVERY buffered partial stdout,
which the wrappers discard. -/
theorem c3_timeout_returns_error :
    (∀ (hash_file wordlist hash_type : String) (options : List String)
       (files : List String) (cwd : List (String × String)) (buffered : String),
       hash_file ≠ "" → files.contains hash_file = true →
       wordlist ≠ "" → files.contains wordlist = true →
       run_hashcat_crack hash_file wordlist hash_type options
           { files := files, proc := .timedOut buffered, cwd := cwd }
         = .error "Hashcat process timed out after 10 minutes.")
  ∧ (∀ (target : String) (options : List String) (buffered : String),
       target ≠ "" →
       run_enum4linux_scan target options (.timedOut buffered)
         = .error "Enum4linux scan timed out after 5 minutes.") := by
  constructor
  · intro hf wl ht opts files cwd buffered hhf hcf hwl hcw
    have h0 : (hf == "") = false := by simp [hhf]
    have h1 : (wl == "") = false := by simp [hwl]
    have hm1 : hf ∈ files := by simpa using hcf
    have hm2 : wl ∈ files := by simpa using hcw
    simp [run_hashcat_crack, h0, h1, hm1, hm2]
  · intro target opts buffered htgt
    have h0 : (target == "") = false := by simp [htgt]
    simp [run_enum4linux_scan, h0]

/-- Witness for the C3 theorem at concrete inputs (note the buffered partial
stdout would even contain a parseable record — it is discarded). -/
theorem c3_witness :
    run_hashcat_crack "h.txt" "rock.txt" "0" []
        { files := ["h.txt", "rock.txt"], proc := .timedOut "aa:bb\n", cwd := [] }
      = .error "Hashcat process timed out after 10 minutes."
  ∧ run_enum4linux_scan "10.0.0.1" [] (.timedOut "user: alice")
      = .error "Enum4linux scan timed out after 5 minutes." := by
  constructor
  · exact c3_timeout_returns_error.1 "h.txt" "rock.txt" "0" [] ["h.txt", "rock.txt"] []
      "aa:bb\n" (by decide) (by decide) (by decide) (by decide)
  · exact c3_timeout_returns_error.2 "10.0.0.1" [] "user: alice" (by decide)

/-- C4 (code defect): the claim that the scratch artifact never exists on
disk after the wrapper returns is the spec's clear intent (guaranteed
cleanup on every exit path, as nikto_tool.py lines 123-129 implement with
`finally`), but `run_gobuster_dir` violates it: its cleanup (lines 110-114)
sits AFTER the hard-error `return` at line 106, so on a non-zero exit with
zero parsed records the wrapper returns the error result while
`/tmp/gobuster_output.txt` still exists. This theorem evaluates the
embedding at such a failing input: exit code 1, stdout empty, artifact file
present with unparseable content. -/
theorem c4_gobuster_artifact_persists_on_error :
    (run_gobuster_dir "http://t" "words.txt" []
        { proc := .ok { returncode := 1, stdout := "", stderr := "" },
          fs := [(gobusterArtifact, "===")] }).1
      = .error "Gobuster process exited with error code 1."
  ∧ fsExists
      (run_gobuster_dir "http://t" "words.txt" []
        { proc := .ok { returncode := 1, stdout := "", stderr := "" },
          fs := [(gobusterArtifact, "===")] }).2
      gobusterArtifact = true := by
  constructor <;> rfl

/-- C5: the `error` field is set iff the outcome is a hard error, and at
least one parsed record rules a hard error out. For each cited wrapper
(gobuster, nuclei, hashcat) the theorem gives (a) a complete characterization
of when the returned dictionary is the error shape — a missing required
input, a missing binary, an unexpected exception, a timeout (hashcat only),
or a non-zero exit (other than hashcat's benign exit code 1) with zero
parsed records — and (b) that whenever the process completed and at least
one record was parsed, the result carries exactly those records with no
error field (success or partial). -/
theorem c5_error_iff_hard_error :
    (∀ (target_url wordlist : String) (options : List String) (proc : ProcOutcome) (fs : Fs),
       ((run_gobuster_dir target_url wordlist options { proc := proc, fs := fs }).1.isError = true
        ↔ (target_url = "" ∨ proc = .fileNotFound ∨ (∃ m, proc = .raised m)
           ∨ (∃ p, proc = .ok p ∧ p.returncode ≠ 0 ∧
                gobusterParseAll target_url p.stdout (fsRead fs gobusterArtifact) = []))))
  ∧ (∀ (target_url wordlist : String) (options : List String) (fs : Fs) (p : CompletedProcess),
       target_url ≠ "" →
       gobusterParseAll target_url p.stdout (fsRead fs gobusterArtifact) ≠ [] →
       (run_gobuster_dir target_url wordlist options { proc := .ok p, fs := fs }).1
         = .result (gobusterParseAll target_url p.stdout (fsRead fs gobusterArtifact))
             (if p.returncode != 0 then some (gobusterErrMsg p) else none))
  ∧ (∀ (J : Type) (jsonLoads : String → Option J) (target_urls templates options : List String)
       (proc : ProcOutcome),
       ((run_nuclei_scan jsonLoads target_urls templates options proc).isError = true
        ↔ (target_urls = [] ∨ proc = .fileNotFound ∨ (∃ m, proc = .raised m)
           ∨ (∃ p, proc = .ok p ∧ p.returncode ≠ 0 ∧ nucleiParseStdout jsonLoads p.stdout = []))))
  ∧ (∀ (J : Type) (jsonLoads : String → Option J) (target_urls templates options : List String)
       (p : CompletedProcess),
       target_urls ≠ [] → nucleiParseStdout jsonLoads p.stdout ≠ [] →
       ∃ w i, run_nuclei_scan jsonLoads target_urls templates options (.ok p)
           = .result (nucleiParseStdout jsonLoads p.stdout) w i)
  ∧ (∀ (hash_file wordlist hash_type : String) (options : List String) (files : List String)
       (cwd : List (String × String)) (proc : ProcOutcomeT),
       ((run_hashcat_crack hash_file wordlist hash_type options
           { files := files, proc := proc, cwd := cwd }).isError = true
        ↔ (hash_file = "" ∨ files.contains hash_file = false
           ∨ wordlist = "" ∨ files.contains wordlist = false
           ∨ proc = .fileNotFound ∨ (∃ s, proc = .timedOut s) ∨ (∃ m, proc = .raised m)
           ∨ (∃ p, proc = .ok p ∧ p.returncode ≠ 0 ∧ p.returncode ≠ 1 ∧
                hashcatAddPotfiles cwd (hashcatStdoutRecords p.stdout) = []))))
  ∧ (∀ (hash_file wordlist hash_type : String) (options : List String) (files : List String)
       (cwd : List (String × String)) (p : CompletedProcess),
       hash_file ≠ "" → files.contains hash_file = true →
       wordlist ≠ "" → files.contains wordlist = true →
       (∃ r, run_hashcat_crack hash_file wordlist hash_type options
               { files := files, proc := .ok p, cwd := cwd } = .result r
             ∧ r.cracked_hashes = hashcatAddPotfiles cwd (hashcatStdoutRecords p.stdout))
           ∨ (run_hashcat_crack hash_file wordlist hash_type options
               { files := files, proc := .ok p, cwd := cwd }
                 = .error (hashcatErrMsg p)
              ∧ hashcatAddPotfiles cwd (hashcatStdoutRecords p.stdout) = [])) := by
  refine ⟨?_, ?_, ?_, ?_, ?_, ?_⟩
  · intro url wl opts proc fs
    by_cases hu : url = ""
    · subst hu
      cases proc <;> simp [run_gobuster_dir, GobusterDict.isError]
    · have h0 : (url == "") = false := by simp [hu]
      cases proc with
      | fileNotFound => simp [run_gobuster_dir, h0, GobusterDict.isError, hu]
      | raised m => simp [run_gobuster_dir, h0, GobusterDict.isError, hu]
      | ok p =>
        by_cases hrc : p.returncode = 0
        · simp [run_gobuster_dir, h0, GobusterDict.isError, hu, hrc]
        · have h1 : (p.returncode != 0) = true := by simp [hrc]
          by_cases hrec : gobusterParseAll url p.stdout (fsRead fs gobusterArtifact) = []
          · simp [run_gobuster_dir, h0, h1, GobusterDict.isError, hu, hrc, hrec]
          · have h2 : (gobusterParseAll url p.stdout (fsRead fs gobusterArtifact)).isEmpty
                = false := by
              cases hx : gobusterParseAll url p.stdout (fsRead fs gobusterArtifact) with
              | nil => exact absurd hx hrec
              | cons a t => rfl
            simp [run_gobuster_dir, h0, h1, h2, GobusterDict.isError, hu, hrc, hrec]
  · intro url wl opts fs p hu hrec
    have h0 : (url == "") = false := by simp [hu]
    have h2 : (gobusterParseAll url p.stdout (fsRead fs gobusterArtifact)).isEmpty = false := by
      cases hx : gobusterParseAll url p.stdout (fsRead fs gobusterArtifact) with
      | nil => exact absurd hx hrec
      | cons a t => rfl
    by_cases hrc : p.returncode = 0
    · simp [run_gobuster_dir, h0, h2, hrc]
    · have h1 : (p.returncode != 0) = true := by simp [hrc]
      simp [run_gobuster_dir, h0, h1, h2]
  · intro J jl urls templates opts proc
    by_cases hu : urls = []
    · subst hu
      cases proc <;> simp [run_nuclei_scan, NucleiDict.isError]
    · have h0 : urls.isEmpty = false := by
        cases urls with
        | nil => exact absurd rfl hu
        | cons a t => rfl
      cases proc with
      | fileNotFound => simp [run_nuclei_scan, h0, NucleiDict.isError, hu]
      | raised m => simp [run_nuclei_scan, h0, NucleiDict.isError, hu]
      | ok p =>
        by_cases hrc : p.returncode = 0
        · simp [run_nuclei_scan, h0, NucleiDict.isError, hu, hrc]
        · have h1 : (p.returncode != 0) = true := by simp [hrc]
          by_cases hrec : nucleiParseStdout jl p.stdout = []
          · simp [run_nuclei_scan, h0, h1, NucleiDict.isError, hu, hrc, hrec]
          · have h2 : (nucleiParseStdout jl p.stdout).isEmpty = false := by
              cases hx : nucleiParseStdout jl p.stdout with
              | nil => exact absurd hx hrec
              | cons a t => rfl
            simp [run_nuclei_scan, h0, h1, h2, NucleiDict.isError, hu, hrc, hrec]
  · intro J jl urls templates opts p hu hrec
    have h0 : urls.isEmpty = false := by
      cases urls with
      | nil => exact absurd rfl hu
      | cons a t => rfl
    have h2 : (nucleiParseStdout jl p.stdout).isEmpty = false := by
      cases hx : nucleiParseStdout jl p.stdout with
      | nil => exact absurd hx hrec
      | cons a t => rfl
    by_cases hrc : p.returncode = 0
    · exact ⟨none, (if p.stderr != "" then some (Py.strip p.stderr) else none),
        by simp [run_nuclei_scan, h0, h2, hrc]⟩
    · have h1 : (p.returncode != 0) = true := by simp [hrc]
      exact ⟨some (nucleiErrMsg p), none, by simp [run_nuclei_scan, h0, h1, h2]⟩
  · intro hf wl ht opts files cwd proc
    by_cases hhf : hf = ""
    · subst hhf
      cases proc <;> simp [run_hashcat_crack, HashcatDict.isError]
    · have h0 : (hf == "") = false := by simp [hhf]
      by_cases hcf : files.contains hf
      · have hm1 : hf ∈ files := by simpa using hcf
        by_cases hwl : wl = ""
        · subst hwl
          cases proc <;> simp [run_hashcat_crack, HashcatDict.isError, hhf, hcf, hm1]
        · have h1 : (wl == "") = false := by simp [hwl]
          by_cases hcw : files.contains wl
          · have hm2 : wl ∈ files := by simpa using hcw
            cases proc with
            | fileNotFound =>
                simp [run_hashcat_crack, HashcatDict.isError, hhf, hwl, hcf, hcw, hm1, hm2]
            | timedOut s =>
                simp [run_hashcat_crack, HashcatDict.isError, hhf, hwl, hcf, hcw, hm1, hm2]
            | raised m =>
                simp [run_hashcat_crack, HashcatDict.isError, hhf, hwl, hcf, hcw, hm1, hm2]
            | ok p =>
                by_cases hrc : p.returncode = 0
                · simp [run_hashcat_crack, HashcatDict.isError, hhf, hwl, hcf, hcw, hm1, hm2, hrc]
                · have h2 : (p.returncode != 0) = true := by simp [hrc]
                  by_cases hr1 : p.returncode = 1
                  · simp [run_hashcat_crack, HashcatDict.isError, hhf, hwl, hcf, hcw, hm1, hm2,
                      hrc, hr1]
                  · have h3 : (p.returncode == 1) = false := by simp [hr1]
                    by_cases hrec : hashcatAddPotfiles cwd (hashcatStdoutRecords p.stdout) = []
                    · simp [run_hashcat_crack, HashcatDict.isError, hhf, hwl, hcf, hcw, hm1, hm2,
                        hrc, hr1, h2, h3, hrec]
                    · have h4 : (hashcatAddPotfiles cwd (hashcatStdoutRecords p.stdout)).isEmpty
                          = false := by
                        cases hx : hashcatAddPotfiles cwd (hashcatStdoutRecords p.stdout) with
                        | nil => exact absurd hx hrec
                        | cons a t => rfl
                      simp [run_hashcat_crack, HashcatDict.isError, hhf, hwl, hcf, hcw, hm1, hm2,
                        hrc, hr1, h2, h3, h4, hrec]
          · have hm2 : ¬(wl ∈ files) := by simpa using hcw
            cases proc <;>
              simp [run_hashcat_crack, HashcatDict.isError, hhf, hwl, hcf, hm1, hm2,
                Bool.not_eq_true] at hcw ⊢
      · have hm1 : ¬(hf ∈ files) := by simpa using hcf
        cases proc <;>
          simp [run_hashcat_crack, HashcatDict.isError, hhf, hm1, Bool.not_eq_true] at hcf ⊢
  · intro hf wl ht opts files cwd p hhf hcf hwl hcw
    have h0 : (hf == "") = false := by simp [hhf]
    have h1 : (wl == "") = false := by simp [hwl]
    have hm1 : hf ∈ files := by simpa using hcf
    have hm2 : wl ∈ files := by simpa using hcw
    by_cases hrc : p.returncode = 0
    · exact Or.inl ⟨⟨ht, hf, wl, hashcatAddPotfiles cwd (hashcatStdoutRecords p.stdout),
        "completed", none⟩,
        by simp [run_hashcat_crack, h0, h1, hm1, hm2, hrc], rfl⟩
    · have h2 : (p.returncode != 0) = true := by simp [hrc]
      by_cases hr1 : p.returncode = 1
      · exact Or.inl ⟨⟨ht, hf, wl, hashcatAddPotfiles cwd (hashcatStdoutRecords p.stdout),
          "exhausted", none⟩,
          by simp [run_hashcat_crack, h0, h1, hm1, hm2, hrc, hr1], rfl⟩
      · have h3 : (p.returncode == 1) = false := by simp [hr1]
        by_cases hrec : hashcatAddPotfiles cwd (hashcatStdoutRecords p.stdout) = []
        · refine Or.inr ⟨?_, hrec⟩
          simp [run_hashcat_crack, h0, h1, hm1, hm2, h2, h3, hrec, hashcatErrMsg]
        · have h4 : (hashcatAddPotfiles cwd (hashcatStdoutRecords p.stdout)).isEmpty = false := by
            cases hx : hashcatAddPotfiles cwd (hashcatStdoutRecords p.stdout) with
            | nil => exact absurd hx hrec
            | cons a t => rfl
          exact Or.inl ⟨⟨ht, hf, wl, hashcatAddPotfiles cwd (hashcatStdoutRecords p.stdout),
            "completed", some (hashcatErrMsg p)⟩,
            by simp [run_hashcat_crack, h0, h1, hm1, hm2, h2, h3, h4], rfl⟩

/-- Witness for the C5 theorem: the hypothesis-bearing record-preservation
components applied at concrete inputs (gobuster with one stdout record and
exit 0; hashcat with one cracked hash and exit 0). -/
theorem c5_witness :
    (run_gobuster_dir "http://t" "words.txt" []
        { proc := .ok { returncode := 0, stdout := "/a b c", stderr := "" }, fs := [] }).1
        = .result [{ path := "/a", status := none, size := none, full_url := "http://t/a" }] none
  ∧ ((∃ r, run_hashcat_crack "h.txt" "rock.txt" "0" []
          { files := ["h.txt", "rock.txt"],
            proc := .ok { returncode := 0, stdout := "aa:bb", stderr := "" }, cwd := [] }
          = .result r
        ∧ r.cracked_hashes = hashcatAddPotfiles [] (hashcatStdoutRecords "aa:bb"))
      ∨ (run_hashcat_crack "h.txt" "rock.txt" "0" []
          { files := ["h.txt", "rock.txt"],
            proc := .ok { returncode := 0, stdout := "aa:bb", stderr := "" }, cwd := [] }
            = .error (hashcatErrMsg ⟨0, "aa:bb", ""⟩)
         ∧ hashcatAddPotfiles [] (hashcatStdoutRecords "aa:bb") = [])) := by
  constructor
  · exact c5_error_iff_hard_error.2.1 "http://t" "words.txt" [] []
      { returncode := 0, stdout := "/a b c", stderr := "" } (by decide) (by decide)
  · exact c5_error_iff_hard_error.2.2.2.2.2 "h.txt" "rock.txt" "0" [] ["h.txt", "rock.txt"] []
      { returncode := 0, stdout := "aa:bb", stderr := "" }
      (by decide) (by decide) (by decide) (by decide)

/-- C7 counterexample: with an EMPTY target and the binary absent from PATH,
gobuster returns the missing-target error, not a message identifying the
missing tool — the missing-input check (gobuster_tool.py lines 26-27) runs
before `subprocess.run` is ever attempted, so the claim's "regardless of the
other inputs" fails (the status is still error, but the message is not the
tool-not-found one). -/
theorem c7_counterexample_empty_target :
    (run_gobuster_dir "" "words.txt" [] { proc := .fileNotFound, fs := [] }).1
      = .error "No target URL specified for gobuster directory scan."
  ∧ "No target URL specified for gobuster directory scan."
      ≠ "Gobuster command not found. Please ensure gobuster is installed and in your system PATH." := by
  constructor
  · rfl
  · decide

/-- C7 (amended): when the target binary is absent from PATH
(`FileNotFoundError` from `subprocess.run`) and the wrapper's missing-target
validation passes, the wrapper returns a status-error result with the
dedicated tool-not-found message — distinct from the runtime
exit-code/timeout failure messages — for gobuster (gobuster_tool.py lines
118-119) and nmap (nmap_tool.py lines 151-152), regardless of wordlist,
options and filesystem state; with an empty target the missing-input error
takes precedence (still a status-error result, shown by the
counterexample). -/
theorem c7_amended_missing_binary_error :
    (∀ (target_url wordlist : String) (options : List String) (fs : Fs),
       target_url ≠ "" →
       (run_gobuster_dir target_url wordlist options { proc := .fileNotFound, fs := fs }).1
         = .error "Gobuster command not found. Please ensure gobuster is installed and in your system PATH.")
  ∧ (∀ (H : Type) (parseNmapXmlOutput : String → NmapParsed H) (targets options : List String),
       targets ≠ [] →
       run_nmap_scan parseNmapXmlOutput targets options .fileNotFound
         = .error "Nmap command not found. Please ensure Nmap is installed and in your system PATH.") := by
  constructor
  · intro url wl opts fs hu
    have h0 : (url == "") = false := by simp [hu]
    simp [run_gobuster_dir, h0]
  · intro H px targets opts ht
    have h0 : targets.isEmpty = false := by
      cases targets with
      | nil => exact absurd rfl ht
      | cons a t => rfl
    simp [run_nmap_scan, h0]

/-- Witness for the amended C7 theorem at concrete inputs. -/
theorem c7_amended_witness :
    (run_gobuster_dir "http://t" "words.txt" ["-t", "50"]
        { proc := .fileNotFound, fs := [] }).1
      = .error "Gobuster command not found. Please ensure gobuster is installed and in your system PATH."
  ∧ run_nmap_scan (fun _ => (NmapParsed.perr "x" "y" : NmapParsed Nat)) ["10.0.0.1"] []
        .fileNotFound
      = .error "Nmap command not found. Please ensure Nmap is installed and in your system PATH." := by
  constructor
  · exact c7_amended_missing_binary_error.1 "http://t" "words.txt" ["-t", "50"] [] (by decide)
  · exact c7_amended_missing_binary_error.2 Nat (fun _ => NmapParsed.perr "x" "y")
      ["10.0.0.1"] [] (by decide)

/-- C10: when the hashcat process starts and exits with code exactly 1
(hashcat_tool.py lines 96-98), `run_hashcat_crack` returns the result
dictionary with the status key set to `"exhausted"`, no error, no warning,
and the parsed cracked hashes (possibly zero of them) — despite 1 being a
non-zero exit code. -/
theorem c10_hashcat_exit1_exhausted :
    ∀ (hash_file wordlist hash_type : String) (options : List String)
      (files : List String) (cwd : List (String × String)) (p : CompletedProcess),
      hash_file ≠ "" → files.contains hash_file = true →
      wordlist ≠ "" → files.contains wordlist = true →
      p.returncode = 1 →
      run_hashcat_crack hash_file wordlist hash_type options
          { files := files, proc := .ok p, cwd := cwd }
        = .result { hash_type := hash_type, hash_file := hash_file, wordlist := wordlist,
                    cracked_hashes := hashcatAddPotfiles cwd (hashcatStdoutRecords p.stdout),
                    status := "exhausted", warning := none } := by
  intro hf wl ht opts files cwd p hhf hcf hwl hcw hrc
  have h0 : (hf == "") = false := by simp [hhf]
  have h1 : (wl == "") = false := by simp [hwl]
  have hm1 : hf ∈ files := by simpa using hcf
  have hm2 : wl ∈ files := by simpa using hcw
  simp [run_hashcat_crack, h0, h1, hm1, hm2, hrc]

/-- Witness for the C10 theorem at a concrete input: exit code 1, one hash
cracked on stdout, one more merged from a potfile — all returned under
status `"exhausted"` with no error and no warning. -/
theorem c10_witness :
    run_hashcat_crack "h.txt" "rock.txt" "0" []
        { files := ["h.txt", "rock.txt"],
          proc := .ok { returncode := 1, stdout := "5d41:hello\n", stderr := "" },
          cwd := [("hashcat.potfile", "9f:pw")] }
      = .result { hash_type := "0", hash_file := "h.txt", wordlist := "rock.txt",
                  cracked_hashes := [{ hash := "5d41", password := "hello" },
                                     { hash := "9f", password := "pw" }],
                  status := "exhausted", warning := none } := by
  exact c10_hashcat_exit1_exhausted "h.txt" "rock.txt" "0" [] ["h.txt", "rock.txt"]
    [("hashcat.potfile", "9f:pw")] { returncode := 1, stdout := "5d41:hello\n", stderr := "" }
    (by decide) (by decide) (by decide) (by decide) rfl

end Cai
